import Mathlib

/-!
Shallow embedding of the nucleoid-backend core: the Controller actor
(`src/controller.rs`), its data model (`src/model.rs`, `src/config.rs`)
and the integrations protocol layer (`src/integrations.rs`).

Actor mailboxes are modelled by explicit step functions: each Rust
`Handler<M> for Controller` impl becomes a Lean function from the
Controller state and the message to the new state, the list of messages
sent to collaborators (`Effect`), and the handler's return value.
`do_send_async` results that the code discards with `let _ =` are
swallowed; the one `send(..).await.expect(..)` call is modelled as
`Except String`, a `.error` being a panic.  HashMaps become functions
`String → Option α` with pointwise insert/remove.
-/

/-- Modelled from the spec: `ServerType` is referenced through
`crate::model::*` but its definition is not among the provided sources.
Spec §3: "ServerType: enum {Minecraft, Velocity(proxy)}". -/
inductive ServerType where
  | minecraft
  | velocity
deriving DecidableEq, Repr

/-- `model.rs` `Player {id, name}`. -/
structure Player where
  id : String
  name : String
deriving DecidableEq, Repr

/-- `model.rs` `Game {name, type, player_count: u16}` (the u16 is only
carried, never computed with, so it is a `Nat` here). -/
structure Game where
  name : String
  ty : String
  player_count : Nat
deriving DecidableEq, Repr

/-- `model.rs` `ServerStatus`; `#[derive(Default)]` gives
`{game_version: "", server_ip: None, games: [], players: []}`. -/
structure ServerStatus where
  game_version : String := ""
  server_ip : Option String := none
  games : List Game := []
  players : List Player := []
deriving DecidableEq, Repr

def ServerStatus.default : ServerStatus := {}

/-- `model.rs` `ChatAttachment`. -/
structure ChatAttachment where
  name : String
  url : String
deriving DecidableEq, Repr

/-- `model.rs` `ChatMessage`; `replying_to: Option<Box<ChatMessage>>`
becomes a nested `Option`. -/
inductive ChatMessage where
  | mk (sender content : String) (name_color : Option Nat)
      (attachments : List ChatAttachment) (replying_to : Option ChatMessage)

/-- `model.rs` `ServerPerformance`; the `f32` field is carried opaquely
as its bit pattern, the core only forwards it verbatim. -/
structure ServerPerformance where
  average_tick_ms_bits : Nat
  tps : Nat
  dimensions : Nat
  entities : Nat
  chunks : Nat
  used_memory : Nat
  total_memory : Nat
deriving DecidableEq, Repr

/-- `config.rs` `Kickback`. -/
structure Kickback where
  to_server : String
  from_server : String
  proxy_channel : String
deriving DecidableEq, Repr

/-- `statistics/model.rs` `GameStatsBundle`; the stat maps are opaque to
the core (only forwarded), so they are association lists here. -/
structure GameStatsBundle where
  namespace_ : String
  stats_global : Option (List (String × String))
  stats_players : List (String × List (String × String))
deriving DecidableEq, Repr

/-- `statistics/database.rs` `UploadStatsBundle` message. -/
structure UploadStatsBundle where
  game_id : String
  server : String
  bundle : GameStatsBundle
deriving DecidableEq, Repr

/-- An `Address<IntegrationsClient>` handle, identified abstractly. -/
abbrev ClientId := Nat

/-- A collaborator address (`Address<DiscordClient>` etc.); `connected`
records whether a `send` into its mailbox succeeds. -/
structure Handle where
  id : Nat
  connected : Bool
deriving DecidableEq, Repr

/-- A `HashMap<String, α>` as a lookup function. -/
def StrMap (α : Type) := String → Option α

def StrMap.empty {α : Type} : StrMap α := fun _ => none

def StrMap.insert {α : Type} (m : StrMap α) (k : String) (v : α) : StrMap α :=
  fun k' => if k' = k then some v else m k'

def StrMap.remove {α : Type} (m : StrMap α) (k : String) : StrMap α :=
  fun k' => if k' = k then none else m k'

/-- `controller.rs` `struct Controller` (the `config` field is reduced to
the only part the handlers read, `config.kickbacks`). -/
structure Controller where
  kickbacks : StrMap Kickback
  discord : Option Handle
  database : Option Handle
  statistics : Option Handle
  integration_clients : StrMap ClientId
  status_by_channel : StrMap ServerStatus

/-- `integrations.rs` `enum OutgoingMessage`. -/
inductive OutgoingMessage where
  | chat (c : ChatMessage)
  | command (command sender : String) (roles : List String) (silent : Bool)
  | sendToServer (player target_server : String)
  | sendServerToServer (from_server to_server : String)

/-- One message sent by a Controller handler to a collaborator. -/
inductive Effect where
  | discordSendChat (channel : String) (sender : Player) (content : String)
  | discordSendSystem (channel content : String)
  | discordUpdateRelayStatus (channel game_version : String)
      (server_ip : Option String) (player_count : Nat)
  | discordReportError (title description : String)
      (fields : Option (List (String × String)))
  | databaseWriteStatus (channel : String) (status : ServerStatus)
  | databaseWritePerformance (channel : String) (performance : ServerPerformance)
  | statsUpload (bundle : UploadStatsBundle)
  | clientSend (client : ClientId) (m : OutgoingMessage)

/-- The Controller's message set (`controller.rs` message structs). -/
inductive ControllerMsg where
  | registerIntegrationsClient (channel game_version : String)
      (server_ip : Option String) (client : ClientId)
  | unregisterIntegrationsClient (channel : String)
  | registerDiscordClient (client : Handle)
  | unregisterDiscordClient
  | registerDatabaseClient (client : Handle)
  | registerStatisticsDatabaseController (controller : Handle)
  | getStatisticsDatabaseController
  | incomingChat (channel : String) (sender : Player) (content : String)
  | outgoingChat (channel : String) (chat : ChatMessage)
  | outgoingCommand (channel sender command : String)
      (roles : List String) (silent : Bool)
  | outgoingServerChange (channel player target_server : String)
  | statusUpdate (channel : String) (games : Option (List Game))
      (players : Option (List Player))
  | performanceUpdate (channel : String) (performance : ServerPerformance)
  | serverLifecycleStart (channel : String) (server_type : ServerType)
  | serverLifecycleStop (channel : String) (crash : Bool) (server_type : ServerType)
  | serverSystemMessage (channel content : String)
  | getStatus (channel : String)
  | backendError (title description : String)
      (fields : Option (List (String × String)))
  | uploadStatsBundle (b : UploadStatsBundle)

/-- The value a handler returns to its asker (`Message::Result`). -/
inductive MsgResult where
  | unit
  | boolResult (b : Bool)
  | statusResult (s : Option ServerStatus)
  | statsHandle (h : Option Handle)

/-- `Handler<RegisterIntegrationsClient>`: insert the client handle, then
`entry(channel).or_insert_with(default)` and overwrite version/ip. -/
def handleRegisterIntegrationsClient (s : Controller) (channel game_version : String)
    (server_ip : Option String) (client : ClientId) : Controller :=
  let st0 := (s.status_by_channel channel).getD ServerStatus.default
  { s with
    integration_clients := s.integration_clients.insert channel client
    status_by_channel := s.status_by_channel.insert channel
      { st0 with game_version := game_version, server_ip := server_ip } }

/-- `Handler<UnregisterIntegrationsClient>`: remove the client handle only. -/
def handleUnregisterIntegrationsClient (s : Controller) (channel : String) : Controller :=
  { s with integration_clients := s.integration_clients.remove channel }

/-- `Handler<IncomingChat>`: forward `SendChat` to Discord when present. -/
def handleIncomingChat (s : Controller) (channel : String) (sender : Player)
    (content : String) : List Effect :=
  match s.discord with
  | some _ => [Effect.discordSendChat channel sender content]
  | none => []

/-- `Handler<OutgoingChat>`: forward `Chat` to the channel's client when present. -/
def handleOutgoingChat (s : Controller) (channel : String) (chat : ChatMessage) :
    List Effect :=
  match s.integration_clients channel with
  | some cid => [Effect.clientSend cid (OutgoingMessage.chat chat)]
  | none => []

/-- `Handler<OutgoingCommand>`: forward `Command` and return `true` when a
client is registered for the channel, else return `false`. -/
def handleOutgoingCommand (s : Controller) (channel sender command : String)
    (roles : List String) (silent : Bool) : List Effect × Bool :=
  match s.integration_clients channel with
  | some cid =>
      ([Effect.clientSend cid (OutgoingMessage.command command sender roles silent)], true)
  | none => ([], false)

/-- `Handler<OutgoingServerChange>`: forward `SendToServer` when present. -/
def handleOutgoingServerChange (s : Controller) (channel player target_server : String) :
    List Effect :=
  match s.integration_clients channel with
  | some cid => [Effect.clientSend cid (OutgoingMessage.sendToServer player target_server)]
  | none => []

/-- `Handler<StatusUpdate>`: `entry(channel).or_insert_with(default)`,
overwrite each present field, then notify Discord and Database. -/
def handleStatusUpdate (s : Controller) (channel : String)
    (games : Option (List Game)) (players : Option (List Player)) :
    Controller × List Effect :=
  let st0 := (s.status_by_channel channel).getD ServerStatus.default
  let st1 := match games with
    | some gs => { st0 with games := gs }
    | none => st0
  let st2 := match players with
    | some ps => { st1 with players := ps }
    | none => st1
  let effD := match s.discord with
    | some _ => [Effect.discordUpdateRelayStatus channel st2.game_version
        st2.server_ip st2.players.length]
    | none => []
  let effDb := match s.database with
    | some _ => [Effect.databaseWriteStatus channel st2]
    | none => []
  ({ s with status_by_channel := s.status_by_channel.insert channel st2 }, effD ++ effDb)

/-- `Handler<PerformanceUpdate>`: forward to the Database when present. -/
def handlePerformanceUpdate (s : Controller) (channel : String)
    (performance : ServerPerformance) : List Effect :=
  match s.database with
  | some _ => [Effect.databaseWritePerformance channel performance]
  | none => []

def ServerType.noun : ServerType → String
  | ServerType.minecraft => "Server"
  | ServerType.velocity => "Proxy"

/-- `Handler<ServerLifecycleStart>`: Discord system message, then the
kickback lookup: rule keyed by channel, proxy client keyed by the rule's
`proxy_channel`, send `SendServerToServer` when both exist. -/
def handleServerLifecycleStart (s : Controller) (channel : String)
    (server_type : ServerType) : List Effect :=
  let effD := match s.discord with
    | some _ => [Effect.discordSendSystem channel (server_type.noun ++ " has started!")]
    | none => []
  let effK := match s.kickbacks channel with
    | some kickback =>
        match s.integration_clients kickback.proxy_channel with
        | some cid => [Effect.clientSend cid
            (OutgoingMessage.sendServerToServer kickback.from_server kickback.to_server)]
        | none => []
    | none => []
  effD ++ effK

/-- `Handler<ServerLifecycleStop>`: remove the status entry, then the
Discord system message with crash/stop wording. -/
def handleServerLifecycleStop (s : Controller) (channel : String) (crash : Bool)
    (server_type : ServerType) : Controller × List Effect :=
  let eff := match s.discord with
    | some _ => [Effect.discordSendSystem channel
        (if crash then server_type.noun ++ " has crashed!"
         else server_type.noun ++ " has stopped!")]
    | none => []
  ({ s with status_by_channel := s.status_by_channel.remove channel }, eff)

/-- `Handler<ServerSystemMessage>`: forward to Discord when present. -/
def handleServerSystemMessage (s : Controller) (channel content : String) : List Effect :=
  match s.discord with
  | some _ => [Effect.discordSendSystem channel content]
  | none => []

/-- `Handler<BackendError>`: forward `ReportError` to Discord when present. -/
def handleBackendError (s : Controller) (title description : String)
    (fields : Option (List (String × String))) : List Effect :=
  match s.discord with
  | some _ => [Effect.discordReportError title description fields]
  | none => []

/-- `Handler<UploadStatsBundle>`: when a statistics handle is registered,
`statistics.send(message).await.expect("statistics controller disconnected")`
— the `.expect` panics (modelled as `.error`) when the send fails. -/
def handleUploadStatsBundle (s : Controller) (b : UploadStatsBundle) :
    Except String (List Effect) :=
  match s.statistics with
  | some h =>
      if h.connected then Except.ok [Effect.statsUpload b]
      else Except.error "statistics controller disconnected"
  | none => Except.ok []

/-- One Controller mailbox step: dispatch to the handler for the message,
as the xtra runtime does.  `.error` is a handler panic. -/
def controllerStep (s : Controller) :
    ControllerMsg → Except String (Controller × List Effect × MsgResult)
  | ControllerMsg.registerIntegrationsClient ch gv ip cl =>
      Except.ok (handleRegisterIntegrationsClient s ch gv ip cl, [], MsgResult.unit)
  | ControllerMsg.unregisterIntegrationsClient ch =>
      Except.ok (handleUnregisterIntegrationsClient s ch, [], MsgResult.unit)
  | ControllerMsg.registerDiscordClient h =>
      Except.ok ({ s with discord := some h }, [], MsgResult.unit)
  | ControllerMsg.unregisterDiscordClient =>
      Except.ok ({ s with discord := none }, [], MsgResult.unit)
  | ControllerMsg.registerDatabaseClient h =>
      Except.ok ({ s with database := some h }, [], MsgResult.unit)
  | ControllerMsg.registerStatisticsDatabaseController h =>
      Except.ok ({ s with statistics := some h }, [], MsgResult.unit)
  | ControllerMsg.getStatisticsDatabaseController =>
      Except.ok (s, [], MsgResult.statsHandle s.statistics)
  | ControllerMsg.incomingChat ch sender content =>
      Except.ok (s, handleIncomingChat s ch sender content, MsgResult.unit)
  | ControllerMsg.outgoingChat ch chat =>
      Except.ok (s, handleOutgoingChat s ch chat, MsgResult.unit)
  | ControllerMsg.outgoingCommand ch sender cmd roles silent =>
      Except.ok (s, (handleOutgoingCommand s ch sender cmd roles silent).1,
        MsgResult.boolResult (handleOutgoingCommand s ch sender cmd roles silent).2)
  | ControllerMsg.outgoingServerChange ch player target =>
      Except.ok (s, handleOutgoingServerChange s ch player target, MsgResult.unit)
  | ControllerMsg.statusUpdate ch games players =>
      Except.ok ((handleStatusUpdate s ch games players).1,
        (handleStatusUpdate s ch games players).2, MsgResult.unit)
  | ControllerMsg.performanceUpdate ch perf =>
      Except.ok (s, handlePerformanceUpdate s ch perf, MsgResult.unit)
  | ControllerMsg.serverLifecycleStart ch ty =>
      Except.ok (s, handleServerLifecycleStart s ch ty, MsgResult.unit)
  | ControllerMsg.serverLifecycleStop ch crash ty =>
      Except.ok ((handleServerLifecycleStop s ch crash ty).1,
        (handleServerLifecycleStop s ch crash ty).2, MsgResult.unit)
  | ControllerMsg.serverSystemMessage ch content =>
      Except.ok (s, handleServerSystemMessage s ch content, MsgResult.unit)
  | ControllerMsg.getStatus ch =>
      Except.ok (s, [], MsgResult.statusResult (s.status_by_channel ch))
  | ControllerMsg.backendError t d f =>
      Except.ok (s, handleBackendError s t d f, MsgResult.unit)
  | ControllerMsg.uploadStatsBundle b =>
      match handleUploadStatsBundle s b with
      | Except.ok eff => Except.ok (s, eff, MsgResult.unit)
      | Except.error e => Except.error e

/-- `integrations.rs` `enum Error` (io/json payloads reduced to a detail
string; the core never inspects them). -/
inductive Err where
  | io (detail : String)
  | json (detail : String)
  | missingHandshake
deriving DecidableEq, Repr

/-- `integrations.rs` `enum IncomingMessage`. -/
inductive IncomingMessage where
  | handshake (channel game_version : String) (server_ip : Option String)
      (server_type : Option ServerType)
  | chat (sender : Player) (content : String)
  | status (players : Option (List Player)) (games : Option (List Game))
  | lifecycleStart
  | lifecycleStop (crash : Bool)
  | performance (p : ServerPerformance)
  | systemMessage (content : String)
  | uploadStatistics (bundle : GameStatsBundle) (game_id : String)

/-- `integrations.rs` `struct Handshake` (the result of a successful
handshake step). -/
structure HandshakeData where
  channel : String
  game_version : String
  server_ip : Option String
  server_type : ServerType
deriving DecidableEq, Repr

/-- `integrations.rs` `handshake`: inspect the first item of the decoded
stream (`stream.next().await`); only `Some(Ok(Handshake{..}))` proceeds,
`Some(Ok(_))` and `None` are `MissingHandshake`, `Some(Err(e))` is `e`.
The stream is the list of decode results still to arrive; `[]` is a
stream closed before any frame. -/
def handshake : List (Except Err IncomingMessage) → Except Err HandshakeData
  | [] => Except.error Err.missingHandshake
  | Except.ok (IncomingMessage.handshake ch gv ip ty) :: _ =>
      Except.ok ⟨ch, gv, ip, ty.getD ServerType.minecraft⟩
  | Except.ok _ :: _ => Except.error Err.missingHandshake
  | Except.error e :: _ => Except.error e

/-- The per-connection client actor state (`struct IntegrationsClient`,
without the sink and controller address, which the incoming-message
handler uses only through the effects modelled below). -/
structure ClientState where
  channel : String
  server_type : ServerType
deriving DecidableEq, Repr

/-- Whether an `IncomingMessage` is a (repeated) `Handshake`. -/
def IncomingMessage.isHandshake : IncomingMessage → Bool
  | IncomingMessage.handshake _ _ _ _ => true
  | _ => false

/-- `Handler<HandleIncomingMessage> for IntegrationsClient`: decode result
in, list of Controller messages sent and a stop flag out.  `sendOk` is
whether `controller.send(..)` succeeds (its `Err` means the Controller is
gone and the client calls `ctx.stop_self()`).  A decoded message matched
by the catch-all arm (a repeated handshake) is only logged; a `Json`
decode error is only logged; any other decode error stops the client. -/
def handleIncoming (st : ClientState) (m : Except Err IncomingMessage)
    (sendOk : Bool) : List ControllerMsg × Bool :=
  match m with
  | Except.ok msg =>
      match msg with
      | IncomingMessage.chat sender content =>
          ([ControllerMsg.incomingChat st.channel sender content], !sendOk)
      | IncomingMessage.status players games =>
          ([ControllerMsg.statusUpdate st.channel games players], !sendOk)
      | IncomingMessage.lifecycleStart =>
          ([ControllerMsg.serverLifecycleStart st.channel st.server_type], !sendOk)
      | IncomingMessage.lifecycleStop crash =>
          ([ControllerMsg.serverLifecycleStop st.channel crash st.server_type], !sendOk)
      | IncomingMessage.performance p =>
          ([ControllerMsg.performanceUpdate st.channel p], !sendOk)
      | IncomingMessage.systemMessage content =>
          ([ControllerMsg.serverSystemMessage st.channel content], !sendOk)
      | IncomingMessage.uploadStatistics bundle game_id =>
          ([ControllerMsg.uploadStatsBundle ⟨game_id, st.channel, bundle⟩], !sendOk)
      | IncomingMessage.handshake _ _ _ _ =>
          ([], false)
  | Except.error (Err.json _) => ([], false)
  | Except.error _ => ([], true)

/-- The channel key a Controller message carries, for those produced by
the client (all constructors `handleIncoming` can emit). -/
def ControllerMsg.channelOf : ControllerMsg → Option String
  | ControllerMsg.incomingChat ch _ _ => some ch
  | ControllerMsg.statusUpdate ch _ _ => some ch
  | ControllerMsg.serverLifecycleStart ch _ => some ch
  | ControllerMsg.serverLifecycleStop ch _ _ => some ch
  | ControllerMsg.performanceUpdate ch _ => some ch
  | ControllerMsg.serverSystemMessage ch _ => some ch
  | ControllerMsg.uploadStatsBundle b => some b.server
  | _ => none

/-- The post-handshake read loop: frames are handled in order and the
loop ends as soon as a handler sets the stop flag; the result is the list
of Controller messages sent. -/
def runFrames (st : ClientState) (sendOk : Bool) :
    List (Except Err IncomingMessage) → List ControllerMsg
  | [] => []
  | f :: rest =>
      let (out, stop) := handleIncoming st f sendOk
      if stop then out else out ++ runFrames st sendOk rest

/-- C5: the first frame on a connection must decode as `Handshake`: a
stream closed before any frame, or a first decoded frame that is not a
handshake, fails with `MissingHandshake`; and only a first frame decoding
as a handshake lets `handshake` succeed. -/
theorem c5_handshake_required :
    (handshake [] = Except.error Err.missingHandshake)
    ∧ (∀ (m : IncomingMessage) (rest : List (Except Err IncomingMessage)),
        m.isHandshake = false →
        handshake (Except.ok m :: rest) = Except.error Err.missingHandshake)
    ∧ (∀ (stream : List (Except Err IncomingMessage)) (h : HandshakeData),
        handshake stream = Except.ok h →
        ∃ ch gv ip ty rest,
          stream = Except.ok (IncomingMessage.handshake ch gv ip ty) :: rest
          ∧ h = ⟨ch, gv, ip, ty.getD ServerType.minecraft⟩) := by
  refine ⟨rfl, ?_, ?_⟩
  · intro m rest hm
    cases m <;> simp [IncomingMessage.isHandshake] at hm <;> rfl
  · intro stream h hok
    match stream with
    | [] => exact absurd hok (by simp [handshake])
    | Except.ok (IncomingMessage.handshake ch gv ip ty) :: rest =>
        refine ⟨ch, gv, ip, ty, rest, rfl, ?_⟩
        simpa [handshake] using hok.symm
    | Except.ok (IncomingMessage.chat a b) :: rest => exact absurd hok (by simp [handshake])
    | Except.ok (IncomingMessage.status a b) :: rest => exact absurd hok (by simp [handshake])
    | Except.ok IncomingMessage.lifecycleStart :: rest => exact absurd hok (by simp [handshake])
    | Except.ok (IncomingMessage.lifecycleStop a) :: rest => exact absurd hok (by simp [handshake])
    | Except.ok (IncomingMessage.performance a) :: rest => exact absurd hok (by simp [handshake])
    | Except.ok (IncomingMessage.systemMessage a) :: rest => exact absurd hok (by simp [handshake])
    | Except.ok (IncomingMessage.uploadStatistics a b) :: rest => exact absurd hok (by simp [handshake])
    | Except.error e :: rest => exact absurd hok (by simp [handshake])

/-- C5 witness: instantiating the theorem at a concrete non-handshake
first frame and at the empty stream. -/
theorem c5_handshake_required_witness :
    handshake [Except.ok (IncomingMessage.chat ⟨"u1", "alice"⟩ "hi")]
      = Except.error Err.missingHandshake :=
  c5_handshake_required.2.1 (IncomingMessage.chat ⟨"u1", "alice"⟩ "hi") [] rfl

/-- C6 counterexample: a repeated `Handshake` decoded after the handshake
does NOT forward a Controller message — it hits the catch-all arm, which
only logs — so "exactly one corresponding typed Controller message" fails
for it at this concrete input. -/
theorem c6_counterexample :
    ¬ ((handleIncoming ⟨"lobby", ServerType.minecraft⟩
        (Except.ok (IncomingMessage.handshake "lobby" "1.20" none none))
        true).1.length = 1) := by
  decide

/-- C6 (amended): every successfully decoded inbound message other than a
repeated handshake maps 1:1 to one typed Controller message carrying the
client's own channel key; a repeated handshake maps to no Controller
message at all (it is only logged). -/
theorem c6_translation_rule
    (st : ClientState) (k : Bool) (sender : Player) (content sysContent : String)
    (players : Option (List Player)) (games : Option (List Game)) (crash : Bool)
    (perf : ServerPerformance) (bundle : GameStatsBundle) (game_id : String)
    (ch gv : String) (ip : Option String) (ty : Option ServerType) :
    handleIncoming st (Except.ok (IncomingMessage.chat sender content)) k
      = ([ControllerMsg.incomingChat st.channel sender content], !k)
    ∧ handleIncoming st (Except.ok (IncomingMessage.status players games)) k
      = ([ControllerMsg.statusUpdate st.channel games players], !k)
    ∧ handleIncoming st (Except.ok IncomingMessage.lifecycleStart) k
      = ([ControllerMsg.serverLifecycleStart st.channel st.server_type], !k)
    ∧ handleIncoming st (Except.ok (IncomingMessage.lifecycleStop crash)) k
      = ([ControllerMsg.serverLifecycleStop st.channel crash st.server_type], !k)
    ∧ handleIncoming st (Except.ok (IncomingMessage.performance perf)) k
      = ([ControllerMsg.performanceUpdate st.channel perf], !k)
    ∧ handleIncoming st (Except.ok (IncomingMessage.systemMessage sysContent)) k
      = ([ControllerMsg.serverSystemMessage st.channel sysContent], !k)
    ∧ handleIncoming st (Except.ok (IncomingMessage.uploadStatistics bundle game_id)) k
      = ([ControllerMsg.uploadStatsBundle ⟨game_id, st.channel, bundle⟩], !k)
    ∧ handleIncoming st (Except.ok (IncomingMessage.handshake ch gv ip ty)) k
      = ([], false)
    ∧ (∀ m : IncomingMessage, m.isHandshake = false →
        ∃ cm : ControllerMsg,
          (handleIncoming st (Except.ok m) k).1 = [cm]
          ∧ cm.channelOf = some st.channel) := by
  refine ⟨rfl, rfl, rfl, rfl, rfl, rfl, rfl, rfl, ?_⟩
  intro m hm
  cases m <;> simp [IncomingMessage.isHandshake] at hm ⊢ <;>
    simp [handleIncoming, ControllerMsg.channelOf]

/-- C6 witness: the amended theorem applied at a concrete chat frame,
with the non-handshake hypothesis discharged there. -/
theorem c6_translation_rule_witness :
    ∃ cm : ControllerMsg,
      (handleIncoming ⟨"lobby", ServerType.minecraft⟩
        (Except.ok (IncomingMessage.chat ⟨"u1", "alice"⟩ "hello")) true).1 = [cm]
      ∧ cm.channelOf = some "lobby" :=
  (c6_translation_rule ⟨"lobby", ServerType.minecraft⟩ true ⟨"u1", "alice"⟩ "hello" ""
    none none false ⟨0, 0, 0, 0, 0, 0, 0⟩ ⟨"ns", none, []⟩ "g" "" "" none
    none).2.2.2.2.2.2.2.2 (IncomingMessage.chat ⟨"u1", "alice"⟩ "hello") rfl

/-- C7: a well-framed frame whose JSON body fails to decode is non-fatal
— no Controller message, no stop, and the remaining frames on the same
connection are still processed — whereas a framing/IO-level error stops
the client: no later frame is processed. -/
theorem c7_json_error_isolation
    (st : ClientState) (d : String) (k : Bool)
    (rest : List (Except Err IncomingMessage)) :
    handleIncoming st (Except.error (Err.json d)) k = ([], false)
    ∧ runFrames st k (Except.error (Err.json d) :: rest) = runFrames st k rest
    ∧ handleIncoming st (Except.error (Err.io d)) k = ([], true)
    ∧ runFrames st k (Except.error (Err.io d) :: rest) = [] := by
  refine ⟨rfl, ?_, rfl, ?_⟩ <;> simp [runFrames, handleIncoming]

/-- The Controller as constructed by `Controller::new` with an empty
kickback table: no collaborators, no clients, no status. -/
def emptyController : Controller :=
  ⟨StrMap.empty, none, none, none, StrMap.empty, StrMap.empty⟩

/-- C1 counterexample: with a statistics handle registered but whose
mailbox send fails (disconnected), handling `UploadStatsBundle` panics
(`.expect("statistics controller disconnected")`) instead of completing
normally — refuting "Controller itself never fails due to an absent or
unreachable collaborator" at this concrete input. -/
theorem c1_counterexample :
    controllerStep { emptyController with statistics := some ⟨0, false⟩ }
      (ControllerMsg.uploadStatsBundle ⟨"g1", "lobby", ⟨"ns", none, []⟩⟩)
      = Except.error "statistics controller disconnected" := rfl

/-- C1 (amended): every Controller handler completes normally — including
every forward to an absent or disconnected Discord or Database handle and
`UploadStatsBundle` with no statistics handle — except exactly one case:
`UploadStatsBundle` with a statistics handle that is registered but whose
mailbox send fails, which panics. -/
theorem c1_optional_collaborator_policy (s : Controller) (m : ControllerMsg) :
    (∃ out, controllerStep s m = Except.ok out) ↔
    (∀ b, m = ControllerMsg.uploadStatsBundle b →
      ∀ h, s.statistics = some h → h.connected = true) := by
  cases m <;> simp only [controllerStep] <;> try simp
  case uploadStatsBundle b =>
    simp only [handleUploadStatsBundle]
    cases hs : s.statistics with
    | none => simp
    | some h =>
      cases hc : h.connected with
      | true => simp [hc]
      | false => simp [hc]

/-- C1 witness: the amended theorem applied with no statistics handle
registered; the handler completes normally. -/
theorem c1_optional_collaborator_policy_witness :
    ∃ out, controllerStep emptyController
      (ControllerMsg.uploadStatsBundle ⟨"g1", "lobby", ⟨"ns", none, []⟩⟩)
      = Except.ok out :=
  (c1_optional_collaborator_policy emptyController
      (ControllerMsg.uploadStatsBundle ⟨"g1", "lobby", ⟨"ns", none, []⟩⟩)).mpr
    (fun _ _ _ hh => Option.noConfusion hh)

/-- The Controller state after one mailbox step (a panicking handler
leaves no new state). -/
def stateAfter (s : Controller) (m : ControllerMsg) : Controller :=
  match controllerStep s m with
  | Except.ok (s', _, _) => s'
  | Except.error _ => s

/-- Whether a Controller message is a `ServerLifecycleStop`. -/
def ControllerMsg.isLifecycleStop : ControllerMsg → Bool
  | ControllerMsg.serverLifecycleStop _ _ _ => true
  | _ => false

/-- C2: after `ServerLifecycleStop(C, ..)` a `GetStatus(C)` returns
absent, for any prior state; no Controller message other than
`ServerLifecycleStop` ever removes a status entry; and
`UnregisterIntegrationsClient` leaves the whole status map unchanged. -/
theorem c2_lifecycle_stop_only_status_removal :
    (∀ (s : Controller) (ch : String) (crash : Bool) (ty : ServerType),
      controllerStep (stateAfter s (ControllerMsg.serverLifecycleStop ch crash ty))
          (ControllerMsg.getStatus ch)
        = Except.ok (stateAfter s (ControllerMsg.serverLifecycleStop ch crash ty),
            [], MsgResult.statusResult none))
    ∧ (∀ (s : Controller) (m : ControllerMsg) (c : String),
        m.isLifecycleStop = false →
        (s.status_by_channel c).isSome = true →
        ((stateAfter s m).status_by_channel c).isSome = true)
    ∧ (∀ (s : Controller) (ch c : String),
        (handleUnregisterIntegrationsClient s ch).status_by_channel c
          = s.status_by_channel c) := by
  refine ⟨?_, ?_, ?_⟩
  · intro s ch crash ty
    simp [stateAfter, controllerStep, handleServerLifecycleStop, StrMap.remove]
  · intro s m c hm hs
    cases m <;> simp [ControllerMsg.isLifecycleStop] at hm <;>
      simp only [stateAfter, controllerStep] <;> try simpa using hs
    case registerIntegrationsClient ch gv ip cl =>
      simp only [handleRegisterIntegrationsClient, StrMap.insert]
      split <;> first | simp | simpa using hs
    case statusUpdate ch games players =>
      simp only [handleStatusUpdate, StrMap.insert]
      split <;> first | simp | simpa using hs
    case uploadStatsBundle b =>
      simp only [handleUploadStatsBundle]
      cases hst : s.statistics with
      | none => simpa using hs
      | some h =>
          cases hc : h.connected <;> simp only [hc] <;> simpa using hs
  · intro s ch c
    rfl

/-- C2 witness: the only-removal part applied at a concrete state that
has a status entry for "lobby", stepping a non-stop message. -/
theorem c2_lifecycle_stop_only_status_removal_witness :
    ((stateAfter
        { emptyController with
          status_by_channel := StrMap.empty.insert "lobby" ServerStatus.default }
        (ControllerMsg.unregisterIntegrationsClient "lobby")).status_by_channel
      "lobby").isSome = true :=
  c2_lifecycle_stop_only_status_removal.2.1
    { emptyController with
      status_by_channel := StrMap.empty.insert "lobby" ServerStatus.default }
    (ControllerMsg.unregisterIntegrationsClient "lobby") "lobby" rfl (by decide)

/-- C10: `UnregisterIntegrationsClient(C)` removes whatever client handle
is currently stored under C, with no check of which connection asked; in
particular after registering h1 then h2 under the same channel, one
unregister leaves no client for C. -/
theorem c10_unregister_unconditional :
    (∀ (s : Controller) (c : String),
      (handleUnregisterIntegrationsClient s c).integration_clients c = none)
    ∧ (∀ (s : Controller) (c gv1 gv2 : String) (ip1 ip2 : Option String)
        (h1 h2 : ClientId),
      (handleUnregisterIntegrationsClient
        (handleRegisterIntegrationsClient
          (handleRegisterIntegrationsClient s c gv1 ip1 h1)
          c gv2 ip2 h2) c).integration_clients c = none) := by
  constructor <;> intros <;>
    simp [handleUnregisterIntegrationsClient, handleRegisterIntegrationsClient,
      StrMap.remove]

/-- One `StatusUpdate` step, restated at the updated channel: the entry
is the old one (or default), with each present field overwritten. -/
theorem handleStatusUpdate_status_at (s : Controller) (ch : String)
    (gs : Option (List Game)) (ps : Option (List Player)) :
    (handleStatusUpdate s ch gs ps).1.status_by_channel ch
      = some { (s.status_by_channel ch).getD ServerStatus.default with
               games := gs.getD
                 (((s.status_by_channel ch).getD ServerStatus.default).games),
               players := ps.getD
                 (((s.status_by_channel ch).getD ServerStatus.default).players) } := by
  cases gs <;> cases ps <;> simp [handleStatusUpdate, StrMap.insert]

/-- A sequence of `StatusUpdate` payloads for one channel, applied in
order to the Controller state. -/
def applyStatusUpdates (ch : String) :
    Controller → List (Option (List Game) × Option (List Player)) → Controller
  | s, [] => s
  | s, u :: rest => applyStatusUpdates ch (handleStatusUpdate s ch u.1 u.2).1 rest

/-- The most recent present value in a list of optional field updates. -/
def lastSupplied {α : Type} : List (Option α) → Option α
  | [] => none
  | o :: rest =>
      match lastSupplied rest with
      | some v => some v
      | none => o

theorem applyStatusUpdates_games (ch : String) :
    ∀ (us : List (Option (List Game) × Option (List Player))) (s : Controller),
    (((applyStatusUpdates ch s us).status_by_channel ch).getD ServerStatus.default).games
      = (lastSupplied (us.map Prod.fst)).getD
          (((s.status_by_channel ch).getD ServerStatus.default).games)
  | [], s => by simp [applyStatusUpdates, lastSupplied]
  | u :: rest, s => by
      have ih := applyStatusUpdates_games ch rest (handleStatusUpdate s ch u.1 u.2).1
      simp only [applyStatusUpdates]
      rw [ih, handleStatusUpdate_status_at]
      cases hl : lastSupplied (rest.map Prod.fst) <;>
        simp [lastSupplied, hl]

theorem applyStatusUpdates_players (ch : String) :
    ∀ (us : List (Option (List Game) × Option (List Player))) (s : Controller),
    (((applyStatusUpdates ch s us).status_by_channel ch).getD ServerStatus.default).players
      = (lastSupplied (us.map Prod.snd)).getD
          (((s.status_by_channel ch).getD ServerStatus.default).players)
  | [], s => by simp [applyStatusUpdates, lastSupplied]
  | u :: rest, s => by
      have ih := applyStatusUpdates_players ch rest (handleStatusUpdate s ch u.1 u.2).1
      simp only [applyStatusUpdates]
      rw [ih, handleStatusUpdate_status_at]
      cases hl : lastSupplied (rest.map Prod.snd) <;>
        simp [lastSupplied, hl]

/-- C3: one `StatusUpdate` overwrites exactly the supplied fields of the
stored status (absent fields unchanged, entry created with defaults when
new); over any sequence of updates on a channel, the stored `games` and
`players` each equal the most recently supplied value for that field; and
the spec's example: games `[g1]` then players `[p1]` yields both. -/
theorem c3_status_update_fieldwise :
    (∀ (s : Controller) (ch : String) (gs : Option (List Game))
        (ps : Option (List Player)),
      (handleStatusUpdate s ch gs ps).1.status_by_channel ch
        = some { (s.status_by_channel ch).getD ServerStatus.default with
                 games := gs.getD
                   (((s.status_by_channel ch).getD ServerStatus.default).games),
                 players := ps.getD
                   (((s.status_by_channel ch).getD ServerStatus.default).players) })
    ∧ (∀ (s : Controller) (ch : String)
        (us : List (Option (List Game) × Option (List Player))),
      (((applyStatusUpdates ch s us).status_by_channel ch).getD
          ServerStatus.default).games
        = (lastSupplied (us.map Prod.fst)).getD
            (((s.status_by_channel ch).getD ServerStatus.default).games)
      ∧ (((applyStatusUpdates ch s us).status_by_channel ch).getD
          ServerStatus.default).players
        = (lastSupplied (us.map Prod.snd)).getD
            (((s.status_by_channel ch).getD ServerStatus.default).players))
    ∧ (∀ (g1 : Game) (p1 : Player),
      (applyStatusUpdates "lobby" emptyController
          [(some [g1], none), (none, some [p1])]).status_by_channel "lobby"
        = some { ServerStatus.default with games := [g1], players := [p1] }) := by
  refine ⟨handleStatusUpdate_status_at, ?_, ?_⟩
  · intro s ch us
    exact ⟨applyStatusUpdates_games ch us s, applyStatusUpdates_players ch us s⟩
  · intro g1 p1
    rfl

/-- C4: `RegisterIntegrationsClient` inserts/overwrites the client handle
for the channel (other channels untouched); when no status entry exists
it creates one with empty games/players and the message's version and ip;
when one exists its games/players are untouched while version and ip are
overwritten (other channels' status untouched). -/
theorem c4_register_integrations_client
    (s : Controller) (ch gv : String) (ip : Option String) (cl : ClientId) :
    ((handleRegisterIntegrationsClient s ch gv ip cl).integration_clients ch
        = some cl)
    ∧ (∀ c, c ≠ ch →
        (handleRegisterIntegrationsClient s ch gv ip cl).integration_clients c
          = s.integration_clients c)
    ∧ (s.status_by_channel ch = none →
        (handleRegisterIntegrationsClient s ch gv ip cl).status_by_channel ch
          = some { game_version := gv, server_ip := ip, games := [], players := [] })
    ∧ (∀ st, s.status_by_channel ch = some st →
        (handleRegisterIntegrationsClient s ch gv ip cl).status_by_channel ch
          = some { st with game_version := gv, server_ip := ip })
    ∧ (∀ c, c ≠ ch →
        (handleRegisterIntegrationsClient s ch gv ip cl).status_by_channel c
          = s.status_by_channel c) := by
  refine ⟨?_, ?_, ?_, ?_, ?_⟩
  · simp [handleRegisterIntegrationsClient, StrMap.insert]
  · intro c hc
    simp [handleRegisterIntegrationsClient, StrMap.insert, hc]
  · intro h
    simp [handleRegisterIntegrationsClient, StrMap.insert, h, ServerStatus.default]
  · intro st h
    simp [handleRegisterIntegrationsClient, StrMap.insert, h]
  · intro c hc
    simp [handleRegisterIntegrationsClient, StrMap.insert, hc]

/-- C4 witness: registering on a fresh channel creates the default-shaped
status carrying the message's version and ip. -/
theorem c4_register_integrations_client_witness :
    (handleRegisterIntegrationsClient emptyController "lobby" "1.20" none
        7).status_by_channel "lobby"
      = some { game_version := "1.20", server_ip := none, games := [], players := [] } :=
  (c4_register_integrations_client emptyController "lobby" "1.20" none 7).2.2.1 rfl

/-- C8: `OutgoingCommand` returns `true` and forwards exactly one
`Command` message (with the handler's field mapping) when a client is
registered for the channel; otherwise it returns `false`, sends nothing,
and in both cases the Controller state is unchanged. -/
theorem c8_outgoing_command (s : Controller) (ch sender cmd : String)
    (roles : List String) (silent : Bool) :
    (∀ cid, s.integration_clients ch = some cid →
      controllerStep s (ControllerMsg.outgoingCommand ch sender cmd roles silent)
        = Except.ok (s,
            [Effect.clientSend cid (OutgoingMessage.command cmd sender roles silent)],
            MsgResult.boolResult true))
    ∧ (s.integration_clients ch = none →
      controllerStep s (ControllerMsg.outgoingCommand ch sender cmd roles silent)
        = Except.ok (s, [], MsgResult.boolResult false)) := by
  constructor
  · intro cid hc
    simp [controllerStep, handleOutgoingCommand, hc]
  · intro hc
    simp [controllerStep, handleOutgoingCommand, hc]

/-- C8 witness: a channel with no registered client returns `false` with
no send and no state change. -/
theorem c8_outgoing_command_witness :
    controllerStep emptyController
        (ControllerMsg.outgoingCommand "lobby" "alice" "tp spawn" [] false)
      = Except.ok (emptyController, [], MsgResult.boolResult false) :=
  (c8_outgoing_command emptyController "lobby" "alice" "tp spawn" [] false).2 rfl

/-- Whether an effect is a `SendServerToServer` delivery to a client. -/
def Effect.isServerToServer : Effect → Bool
  | Effect.clientSend _ (OutgoingMessage.sendServerToServer _ _) => true
  | _ => false

/-- C9: on `ServerLifecycleStart(channel, _)`, when the kickback table
has an entry for the channel AND a client is registered under that
entry's proxy channel, exactly one `SendServerToServer{from_server,
to_server}` (fields from the kickback entry) goes to that proxy client;
when the table entry or the proxy client is missing, none is sent. -/
theorem c9_kickback_on_lifecycle_start (s : Controller) (ch : String)
    (ty : ServerType) :
    (∀ kb cid, s.kickbacks ch = some kb →
      s.integration_clients kb.proxy_channel = some cid →
      (handleServerLifecycleStart s ch ty).filter Effect.isServerToServer
        = [Effect.clientSend cid
            (OutgoingMessage.sendServerToServer kb.from_server kb.to_server)])
    ∧ (s.kickbacks ch = none →
      (handleServerLifecycleStart s ch ty).filter Effect.isServerToServer = [])
    ∧ (∀ kb, s.kickbacks ch = some kb →
      s.integration_clients kb.proxy_channel = none →
      (handleServerLifecycleStart s ch ty).filter Effect.isServerToServer = []) := by
  refine ⟨?_, ?_, ?_⟩
  · intro kb cid hkb hcl
    cases hd : s.discord <;>
      simp [handleServerLifecycleStart, hd, hkb, hcl, Effect.isServerToServer]
  · intro hkb
    cases hd : s.discord <;>
      simp [handleServerLifecycleStart, hd, hkb, Effect.isServerToServer]
  · intro kb hkb hcl
    cases hd : s.discord <;>
      simp [handleServerLifecycleStart, hd, hkb, hcl, Effect.isServerToServer]

/-- C9 witness: the spec's scenario — kickback rule for "lobby" moving
players from "lobby" to "survival" through proxy channel "proxy", with a
client registered under "proxy" — delivers exactly one
`SendServerToServer{from_server:"lobby", to_server:"survival"}` there. -/
theorem c9_kickback_on_lifecycle_start_witness :
    (handleServerLifecycleStart
        { emptyController with
          kickbacks := StrMap.empty.insert "lobby"
            { to_server := "survival", from_server := "lobby",
              proxy_channel := "proxy" },
          integration_clients := StrMap.empty.insert "proxy" 3 }
        "lobby" ServerType.minecraft).filter Effect.isServerToServer
      = [Effect.clientSend 3
          (OutgoingMessage.sendServerToServer "lobby" "survival")] :=
  (c9_kickback_on_lifecycle_start
      { emptyController with
        kickbacks := StrMap.empty.insert "lobby"
          { to_server := "survival", from_server := "lobby",
            proxy_channel := "proxy" },
        integration_clients := StrMap.empty.insert "proxy" 3 }
      "lobby" ServerType.minecraft).1
    { to_server := "survival", from_server := "lobby", proxy_channel := "proxy" }
    3 (by decide) (by decide)
